import Mathlib

/-!
Shallow embedding of `config/config.go` from the opentelemetry-collector
repository: the `Config` data model and its `Validate` / `validateService`
functions, together with theorems about the validator.

Modelling conventions:
* `ComponentID` is an opaque string identifier (the spec treats it as an
  opaque unique string; equality is exact string equality).
* Each Go registry (`Receivers`, `Exporters`, `Processors`, `Extensions`)
  is a map from `ComponentID` to a per-component configuration value.  A
  registry is modelled as an association list; `Option CompCfg` is the
  value type, with `none` standing for a Go `nil` map value, so that the
  Go expression `m[ref] == nil` (true both when the key is absent and when
  the stored value is `nil`) becomes `Registry.lookup m ref = none`.
* A per-component configuration is opaque here: the code only consumes its
  `Validate() error` capability (an external collaborator), so `CompCfg`
  records the outcome of that call as an oracle field `validateErr`
  (`none` = the component's own Validate returned nil).  A `nil` map value
  has no component configuration to validate and contributes no error.
* Go's `error` results become `Option ConfigError`: `none` is `nil`
  (success), `some e` is the first error returned.  The distinct
  `fmt.Errorf` / `errors.New` error values of the source become the
  constructors of `ConfigError`, carrying the same data that the Go
  format strings interpolate.
-/

namespace OTelConfig

/-- ComponentID is an opaque unique string identifier for one configured
component instance (used both as registry key and cross-reference value). -/
abbrev ComponentID := String

/-- The outcome of one per-component configuration's own `Validate()` call
(the capability consumed from the external collaborator): `none` means the
component's own Validate returned nil, `some cause` the error it returned. -/
structure CompCfg where
  validateErr : Option String
deriving Repr, DecidableEq

/-- A registry (Receivers, Exporters, Processors or Extensions): a map from
ComponentID to a per-component configuration value, where a `none` value
models a Go `nil` stored under a present key. -/
abbrev Registry := List (ComponentID × Option CompCfg)

/-- Go map indexing `m[id]`: the stored value when the key is present, and
the zero value `nil` when it is absent.  The result is `none` exactly when
`m[id] == nil` holds in the Go source. -/
def Registry.lookup (r : Registry) (id : ComponentID) : Option CompCfg :=
  (r.find? (fun e => e.1 == id)).bind Prod.snd

/-- DataType is the data type collected by a pipeline (traces, metrics, logs). -/
abbrev DataType := String

/-- The errors `Config.Validate` can return, one constructor per distinct
`errors.New` / `fmt.Errorf` site of the source, carrying the values the
format string interpolates. -/
inductive ConfigError where
  | missingReceivers
  | missingExporters
  | missingServicePipelines
  | invalidComponentConfig (kind : String) (id : ComponentID) (cause : String)
  | invalidTelemetryEncoding (got : String)
  | unknownExtensionReference (id : ComponentID)
  | emptyPipelineReceivers (pipelineName : String)
  | unknownReceiverReference (pipelineName : String) (id : ComponentID)
  | unknownProcessorReference (pipelineName : String) (id : ComponentID)
  | emptyPipelineExporters (pipelineName : String)
  | unknownExporterReference (pipelineName : String) (id : ComponentID)
deriving Repr, DecidableEq

/-- ServiceTelemetryLogs holds the configurable settings for service
telemetry logs (level, development, encoding), mirroring the Go struct. -/
structure ServiceTelemetryLogs where
  level : Int
  development : Bool
  encoding : String
deriving Repr, DecidableEq

/-- Go `ServiceTelemetryLogs.validate`: the encoding must be exactly
"json" or "console". -/
def ServiceTelemetryLogs.validate (srvTL : ServiceTelemetryLogs) : Option ConfigError :=
  if srvTL.encoding ≠ "json" ∧ srvTL.encoding ≠ "console" then
    some (ConfigError.invalidTelemetryEncoding srvTL.encoding)
  else
    none

/-- ServiceTelemetry wraps the telemetry logs settings. -/
structure ServiceTelemetry where
  logs : ServiceTelemetryLogs
deriving Repr, DecidableEq

/-- Go `ServiceTelemetry.validate` delegates to the logs settings. -/
def ServiceTelemetry.validate (srvT : ServiceTelemetry) : Option ConfigError :=
  srvT.logs.validate

/-- Pipeline defines a single pipeline: a name, an input type, and ordered
lists of receiver, processor and exporter ComponentIDs. -/
structure Pipeline where
  name : String
  inputType : DataType
  receivers : List ComponentID
  processors : List ComponentID
  exporters : List ComponentID
deriving Repr, DecidableEq

/-- Pipelines is a map of names to pipelines (Go `map[ComponentID]*Pipeline`),
modelled as an association list of non-nil pipelines. -/
abbrev Pipelines := List (ComponentID × Pipeline)

/-- Service aggregates the telemetry settings, the ordered list of enabled
extension ComponentIDs, and the pipelines map. -/
structure Service where
  telemetry : ServiceTelemetry
  extensions : List ComponentID
  pipelines : Pipelines
deriving Repr, DecidableEq

/-- Config is the root entity: the four component registries plus the
service section. -/
structure Config where
  receivers : Registry
  exporters : Registry
  processors : Registry
  extensions : Registry
  service : Service
deriving Repr, DecidableEq

/-- Go's early-return sequencing of two error-producing steps: the first
error wins, otherwise the second step's result stands. -/
def firstOf (a b : Option ConfigError) : Option ConfigError :=
  match a with
  | some e => some e
  | none => b

/-- A Go `for ... range` loop that returns the first error produced by `f`
on an element, and nil when every element passes. -/
def firstErr {α : Type} (f : α → Option ConfigError) : List α → Option ConfigError
  | [] => none
  | x :: xs =>
    match f x with
    | some e => some e
    | none => firstErr f xs

/-- One iteration of a per-component validation loop: a `some` entry whose
own Validate fails is wrapped with the component kind and id (the Go
`fmt.Errorf("<kind> %q has invalid configuration: %w", id, err)`); a `nil`
entry has no component configuration and contributes no error. -/
def componentErr (kind : String) (e : ComponentID × Option CompCfg) : Option ConfigError :=
  match e.2 with
  | none => none
  | some c =>
    match c.validateErr with
    | none => none
    | some cause => some (ConfigError.invalidComponentConfig kind e.1 cause)

/-- The check on one service-extensions reference (config.go lines 97-102):
the looked-up value must be non-nil. -/
def extRefErr (cfg : Config) (ref : ComponentID) : Option ConfigError :=
  if Registry.lookup cfg.extensions ref = none then
    some (ConfigError.unknownExtensionReference ref)
  else
    none

/-- The check on one pipeline receiver reference (config.go lines 118-123). -/
def recvRefErr (cfg : Config) (pipelineName : String) (ref : ComponentID) : Option ConfigError :=
  if Registry.lookup cfg.receivers ref = none then
    some (ConfigError.unknownReceiverReference pipelineName ref)
  else
    none

/-- The check on one pipeline processor reference (config.go lines 126-131). -/
def procRefErr (cfg : Config) (pipelineName : String) (ref : ComponentID) : Option ConfigError :=
  if Registry.lookup cfg.processors ref = none then
    some (ConfigError.unknownProcessorReference pipelineName ref)
  else
    none

/-- The check on one pipeline exporter reference (config.go lines 139-144). -/
def expRefErr (cfg : Config) (pipelineName : String) (ref : ComponentID) : Option ConfigError :=
  if Registry.lookup cfg.exporters ref = none then
    some (ConfigError.unknownExporterReference pipelineName ref)
  else
    none

/-- The body of the per-pipeline loop of `validateService` (config.go lines
111-145): non-empty receivers, resolvable receiver references, resolvable
processor references, non-empty exporters, resolvable exporter references,
in that order, first violation returned. -/
def Config.validatePipeline (cfg : Config) (pipeline : Pipeline) : Option ConfigError :=
  if pipeline.receivers.length = 0 then
    some (ConfigError.emptyPipelineReceivers pipeline.name)
  else
    firstOf (firstErr (recvRefErr cfg pipeline.name) pipeline.receivers)
      (firstOf (firstErr (procRefErr cfg pipeline.name) pipeline.processors)
        (if pipeline.exporters.length = 0 then
          some (ConfigError.emptyPipelineExporters pipeline.name)
        else
          firstErr (expRefErr cfg pipeline.name) pipeline.exporters))

/-- Go `Config.validateService`: telemetry validity, then service extension
references, then non-emptiness of the pipelines map, then each pipeline's
structural and referential validity, first violation returned. -/
def Config.validateService (cfg : Config) : Option ConfigError :=
  firstOf cfg.service.telemetry.validate
    (firstOf (firstErr (extRefErr cfg) cfg.service.extensions)
      (if cfg.service.pipelines.length = 0 then
        some ConfigError.missingServicePipelines
      else
        firstErr (fun e => cfg.validatePipeline e.2) cfg.service.pipelines))

/-- Go `Config.Validate`: non-empty receivers, per-receiver validation,
non-empty exporters, per-exporter validation, per-processor validation,
per-extension validation, then `validateService`, first violation
returned. -/
def Config.Validate (cfg : Config) : Option ConfigError :=
  if cfg.receivers.length = 0 then
    some ConfigError.missingReceivers
  else
    firstOf (firstErr (componentErr "receiver") cfg.receivers)
      (if cfg.exporters.length = 0 then
        some ConfigError.missingExporters
      else
        firstOf (firstErr (componentErr "exporter") cfg.exporters)
          (firstOf (firstErr (componentErr "processor") cfg.processors)
            (firstOf (firstErr (componentErr "extension") cfg.extensions)
              cfg.validateService)))

/-- A component configuration whose own Validate succeeds. -/
def okCfg : Option CompCfg := some { validateErr := none }

/-- The scenario A configuration from the specification: one receiver, one
exporter, empty processor and extension registries, one pipeline wiring
"r1" to "e1", json log encoding. -/
def cfgA : Config :=
  { receivers := [("r1", okCfg)]
    exporters := [("e1", okCfg)]
    processors := []
    extensions := []
    service :=
      { telemetry := { logs := { level := 0, development := false, encoding := "json" } }
        extensions := []
        pipelines := [("p1",
          { name := "p1", inputType := "traces"
            receivers := ["r1"], processors := [], exporters := ["e1"] })] } }

/-! Basic lemmas about the sequencing combinators. -/

theorem firstOf_eq_none_iff (a b : Option ConfigError) :
    firstOf a b = none ↔ a = none ∧ b = none := by
  cases a <;> simp [firstOf]

theorem firstErr_eq_none_iff {α : Type} (f : α → Option ConfigError) (l : List α) :
    firstErr f l = none ↔ ∀ x ∈ l, f x = none := by
  induction l with
  | nil => simp [firstErr]
  | cons x xs ih =>
    cases hx : f x <;> simp [firstErr, hx, ih]

theorem firstErr_cons {α : Type} (f : α → Option ConfigError) (x : α) (l : List α) :
    firstErr f (x :: l) = firstOf (f x) (firstErr f l) := by
  cases hx : f x <;> simp [firstErr, firstOf, hx]

theorem firstErr_append {α : Type} (f : α → Option ConfigError) (l₁ l₂ : List α) :
    firstErr f (l₁ ++ l₂) = firstOf (firstErr f l₁) (firstErr f l₂) := by
  induction l₁ with
  | nil => simp [firstErr, firstOf]
  | cons x xs ih =>
    rw [List.cons_append, firstErr_cons, firstErr_cons, ih]
    cases f x <;> simp [firstOf]

theorem componentErr_eq_none_iff (kind : String) (e : ComponentID × Option CompCfg) :
    componentErr kind e = none ↔ ∀ c : CompCfg, e.2 = some c → c.validateErr = none := by
  rcases e with ⟨id, v⟩
  cases v with
  | none => simp [componentErr]
  | some c => cases hc : c.validateErr <;> simp [componentErr, hc]

theorem logs_validate_eq_none_iff (l : ServiceTelemetryLogs) :
    l.validate = none ↔ l.encoding = "json" ∨ l.encoding = "console" := by
  unfold ServiceTelemetryLogs.validate
  split <;> rename_i h
  · exact iff_of_false (by simp) (by tauto)
  · exact iff_of_true rfl (by tauto)

theorem extRefErr_eq_none_iff (cfg : Config) (ref : ComponentID) :
    extRefErr cfg ref = none ↔ Registry.lookup cfg.extensions ref ≠ none := by
  unfold extRefErr
  split <;> simp_all

theorem recvRefErr_eq_none_iff (cfg : Config) (n : String) (ref : ComponentID) :
    recvRefErr cfg n ref = none ↔ Registry.lookup cfg.receivers ref ≠ none := by
  unfold recvRefErr
  split <;> simp_all

theorem procRefErr_eq_none_iff (cfg : Config) (n : String) (ref : ComponentID) :
    procRefErr cfg n ref = none ↔ Registry.lookup cfg.processors ref ≠ none := by
  unfold procRefErr
  split <;> simp_all

theorem expRefErr_eq_none_iff (cfg : Config) (n : String) (ref : ComponentID) :
    expRefErr cfg n ref = none ↔ Registry.lookup cfg.exporters ref ≠ none := by
  unfold expRefErr
  split <;> simp_all

theorem validatePipeline_eq_none_iff (cfg : Config) (p : Pipeline) :
    cfg.validatePipeline p = none ↔
      (p.receivers ≠ [] ∧
       (∀ ref ∈ p.receivers, Registry.lookup cfg.receivers ref ≠ none) ∧
       (∀ ref ∈ p.processors, Registry.lookup cfg.processors ref ≠ none) ∧
       p.exporters ≠ [] ∧
       (∀ ref ∈ p.exporters, Registry.lookup cfg.exporters ref ≠ none)) := by
  unfold Config.validatePipeline
  split <;> rename_i h
  · simp only [List.length_eq_zero] at h
    simp [h]
  · simp only [List.length_eq_zero] at h
    rw [firstOf_eq_none_iff, firstErr_eq_none_iff, firstOf_eq_none_iff, firstErr_eq_none_iff]
    constructor
    · rintro ⟨hr, hp, hrest⟩
      split at hrest <;> rename_i he
      · simp at hrest
      · simp only [List.length_eq_zero] at he
        rw [firstErr_eq_none_iff] at hrest
        refine ⟨h, fun ref hm => ?_, fun ref hm => ?_, he, fun ref hm => ?_⟩
        · exact (recvRefErr_eq_none_iff cfg p.name ref).mp (hr ref hm)
        · exact (procRefErr_eq_none_iff cfg p.name ref).mp (hp ref hm)
        · exact (expRefErr_eq_none_iff cfg p.name ref).mp (hrest ref hm)
    · rintro ⟨_, hr, hp, he, hex⟩
      refine ⟨fun ref hm => (recvRefErr_eq_none_iff cfg p.name ref).mpr (hr ref hm),
              fun ref hm => (procRefErr_eq_none_iff cfg p.name ref).mpr (hp ref hm), ?_⟩
      split <;> rename_i he2
      · simp only [List.length_eq_zero] at he2
        exact absurd he2 he
      · rw [firstErr_eq_none_iff]
        exact fun ref hm => (expRefErr_eq_none_iff cfg p.name ref).mpr (hex ref hm)

theorem validateService_eq_none_iff (cfg : Config) :
    cfg.validateService = none ↔
      ((cfg.service.telemetry.logs.encoding = "json" ∨
        cfg.service.telemetry.logs.encoding = "console") ∧
       (∀ ref ∈ cfg.service.extensions, Registry.lookup cfg.extensions ref ≠ none) ∧
       cfg.service.pipelines ≠ [] ∧
       (∀ e ∈ cfg.service.pipelines, cfg.validatePipeline e.2 = none)) := by
  unfold Config.validateService
  rw [firstOf_eq_none_iff, firstOf_eq_none_iff, firstErr_eq_none_iff,
    ServiceTelemetry.validate, logs_validate_eq_none_iff]
  constructor
  · rintro ⟨henc, hext, hrest⟩
    split at hrest <;> rename_i hp
    · simp at hrest
    · simp only [List.length_eq_zero] at hp
      rw [firstErr_eq_none_iff] at hrest
      exact ⟨henc, fun ref hm => (extRefErr_eq_none_iff cfg ref).mp (hext ref hm), hp, hrest⟩
  · rintro ⟨henc, hext, hp, hpipes⟩
    refine ⟨henc, fun ref hm => (extRefErr_eq_none_iff cfg ref).mpr (hext ref hm), ?_⟩
    split <;> rename_i hp2
    · simp only [List.length_eq_zero] at hp2
      exact absurd hp2 hp
    · rw [firstErr_eq_none_iff]
      exact hpipes

/-- Claim C1: Validate returns success (none) if and only if: the Receivers
registry is non-empty; every receiver, exporter, processor and extension
configuration's own Validate returns nil; the Exporters registry is
non-empty; the telemetry logs encoding is "json" or "console"; every
ComponentID in Service.Extensions resolves in the top-level Extensions
registry; Service.Pipelines is non-empty; and every pipeline has a
non-empty receivers list whose IDs all resolve in Receivers, processor IDs
that all resolve in Processors, and a non-empty exporters list whose IDs
all resolve in Exporters. -/
theorem validate_success_iff (cfg : Config) :
    cfg.Validate = none ↔
      (cfg.receivers ≠ [] ∧
       (∀ e ∈ cfg.receivers, ∀ c : CompCfg, e.2 = some c → c.validateErr = none) ∧
       (∀ e ∈ cfg.exporters, ∀ c : CompCfg, e.2 = some c → c.validateErr = none) ∧
       (∀ e ∈ cfg.processors, ∀ c : CompCfg, e.2 = some c → c.validateErr = none) ∧
       (∀ e ∈ cfg.extensions, ∀ c : CompCfg, e.2 = some c → c.validateErr = none) ∧
       cfg.exporters ≠ [] ∧
       (cfg.service.telemetry.logs.encoding = "json" ∨
        cfg.service.telemetry.logs.encoding = "console") ∧
       (∀ ref ∈ cfg.service.extensions, Registry.lookup cfg.extensions ref ≠ none) ∧
       cfg.service.pipelines ≠ [] ∧
       (∀ e ∈ cfg.service.pipelines,
          e.2.receivers ≠ [] ∧
          (∀ ref ∈ e.2.receivers, Registry.lookup cfg.receivers ref ≠ none) ∧
          (∀ ref ∈ e.2.processors, Registry.lookup cfg.processors ref ≠ none) ∧
          e.2.exporters ≠ [] ∧
          (∀ ref ∈ e.2.exporters, Registry.lookup cfg.exporters ref ≠ none))) := by
  unfold Config.Validate
  constructor
  · intro h
    split at h <;> rename_i hr
    · simp at h
    · simp only [List.length_eq_zero] at hr
      rw [firstOf_eq_none_iff] at h
      obtain ⟨hrecv, h⟩ := h
      split at h <;> rename_i he
      · simp at h
      · simp only [List.length_eq_zero] at he
        rw [firstOf_eq_none_iff, firstOf_eq_none_iff, firstOf_eq_none_iff] at h
        obtain ⟨hexp, hproc, hext, hsvc⟩ := h
        rw [firstErr_eq_none_iff] at hrecv hexp hproc hext
        rw [validateService_eq_none_iff] at hsvc
        obtain ⟨henc, hsext, hp, hpipes⟩ := hsvc
        refine ⟨hr,
          fun e hm => (componentErr_eq_none_iff _ e).mp (hrecv e hm),
          fun e hm => (componentErr_eq_none_iff _ e).mp (hexp e hm),
          fun e hm => (componentErr_eq_none_iff _ e).mp (hproc e hm),
          fun e hm => (componentErr_eq_none_iff _ e).mp (hext e hm),
          he, henc, hsext, hp, fun e hm => ?_⟩
        exact (validatePipeline_eq_none_iff cfg e.2).mp (hpipes e hm)
  · rintro ⟨hr, hrecv, hexp, hproc, hext, he, henc, hsext, hp, hpipes⟩
    split <;> rename_i hr2
    · simp only [List.length_eq_zero] at hr2
      exact absurd hr2 hr
    · rw [firstOf_eq_none_iff]
      have hrecv2 : firstErr (componentErr "receiver") cfg.receivers = none := by
        rw [firstErr_eq_none_iff]
        exact fun e hm => (componentErr_eq_none_iff _ e).mpr (hrecv e hm)
      refine ⟨hrecv2, ?_⟩
      split <;> rename_i he2
      · simp only [List.length_eq_zero] at he2
        exact absurd he2 he
      · rw [firstOf_eq_none_iff, firstOf_eq_none_iff, firstOf_eq_none_iff,
          firstErr_eq_none_iff, firstErr_eq_none_iff, firstErr_eq_none_iff,
          validateService_eq_none_iff]
        refine ⟨fun e hm => (componentErr_eq_none_iff _ e).mpr (hexp e hm),
                fun e hm => (componentErr_eq_none_iff _ e).mpr (hproc e hm),
                fun e hm => (componentErr_eq_none_iff _ e).mpr (hext e hm),
                henc, hsext, hp, fun e hm => ?_⟩
        exact (validatePipeline_eq_none_iff cfg e.2).mpr (hpipes e hm)

/-! Helper lemma: a registry whose every non-nil entry passes its own
validation produces no error in the per-component loop. -/

theorem firstErr_componentErr_eq_none (kind : String) (r : Registry)
    (h : ∀ e ∈ r, ∀ c : CompCfg, e.2 = some c → c.validateErr = none) :
    firstErr (componentErr kind) r = none := by
  rw [firstErr_eq_none_iff]
  exact fun e hm => (componentErr_eq_none_iff _ e).mpr (h e hm)

/-- Claim C2: a Config with an empty Receivers registry is rejected with
the MissingReceivers error, regardless of all other contents; the rule is
checked before any other rule. -/
theorem empty_receivers_rejected (cfg : Config) (h : cfg.receivers = []) :
    cfg.Validate = some ConfigError.missingReceivers := by
  unfold Config.Validate
  rw [h]
  simp

/-- Scenario C configuration: empty Receivers, everything else populated,
and deliberately containing further violations (a failing exporter
configuration, an invalid telemetry encoding, a dangling service extension
reference, a pipeline with a dangling receiver and no exporters). -/
def cfgScenarioC : Config :=
  { receivers := []
    exporters := [("e1", okCfg), ("bad", some { validateErr := some "broken exporter" })]
    processors := [("pr", none)]
    extensions := [("x1", okCfg)]
    service :=
      { telemetry := { logs := { level := 0, development := false, encoding := "yaml" } }
        extensions := ["nosuch"]
        pipelines := [("p1",
          { name := "p1", inputType := "metrics"
            receivers := ["ghost"], processors := [], exporters := [] })] } }

/-- Witness for claim C2 at the scenario C configuration. -/
theorem empty_receivers_rejected_witness :
    cfgScenarioC.Validate = some ConfigError.missingReceivers :=
  empty_receivers_rejected cfgScenarioC rfl

/-- A configuration with an empty Exporters registry, a non-empty
Receivers registry, and a receiver whose own Validate fails. -/
def cfgBadRecvNoExp : Config :=
  { receivers := [("r1", some { validateErr := some "boom" })]
    exporters := []
    processors := []
    extensions := []
    service :=
      { telemetry := { logs := { level := 0, development := false, encoding := "json" } }
        extensions := []
        pipelines := [] } }

/-- Counterexample to claim C3 as stated: this Config has an empty
Exporters registry and a non-empty Receivers registry, yet Validate does
not return MissingExporters — the per-receiver validation runs first and
its failure is returned instead. -/
theorem missing_exporters_counterexample :
    cfgBadRecvNoExp.exporters = [] ∧ cfgBadRecvNoExp.receivers ≠ [] ∧
    cfgBadRecvNoExp.Validate ≠ some ConfigError.missingExporters ∧
    cfgBadRecvNoExp.Validate =
      some (ConfigError.invalidComponentConfig "receiver" "r1" "boom") := by
  decide

/-- Claim C3 amended: for every Config whose Exporters registry is empty,
whose Receivers registry is non-empty, and every one of whose receiver
configurations' own Validate returns nil, Validate returns the
MissingExporters error. -/
theorem missing_exporters_amended (cfg : Config)
    (hr : cfg.receivers ≠ [])
    (hrv : ∀ e ∈ cfg.receivers, ∀ c : CompCfg, e.2 = some c → c.validateErr = none)
    (he : cfg.exporters = []) :
    cfg.Validate = some ConfigError.missingExporters := by
  unfold Config.Validate
  rw [if_neg (by simp only [List.length_eq_zero]; exact hr),
    firstErr_componentErr_eq_none "receiver" _ hrv]
  simp [firstOf, he]

/-- One receiver that validates, no exporters. -/
def cfgNoExp : Config :=
  { receivers := [("r1", okCfg)]
    exporters := []
    processors := []
    extensions := []
    service :=
      { telemetry := { logs := { level := 0, development := false, encoding := "json" } }
        extensions := []
        pipelines := [] } }

/-- Witness for the amended claim C3 at a concrete configuration. -/
theorem missing_exporters_amended_witness :
    cfgNoExp.Validate = some ConfigError.missingExporters :=
  missing_exporters_amended cfgNoExp (by decide) (by simp [cfgNoExp, okCfg]) rfl

/-- A configuration with non-empty Receivers and Exporters, an empty
pipelines map, and an invalid (empty) telemetry encoding. -/
def cfgNoPipesBadEnc : Config :=
  { receivers := [("r1", okCfg)]
    exporters := [("e1", okCfg)]
    processors := []
    extensions := []
    service :=
      { telemetry := { logs := { level := 0, development := false, encoding := "" } }
        extensions := []
        pipelines := [] } }

/-- Counterexample to claim C4 as stated: this Config has non-empty
Receivers and Exporters registries and an empty Service.Pipelines map, yet
Validate does not return MissingPipelines — the telemetry encoding check
runs first and its failure is returned instead. -/
theorem missing_pipelines_counterexample :
    cfgNoPipesBadEnc.receivers ≠ [] ∧ cfgNoPipesBadEnc.exporters ≠ [] ∧
    cfgNoPipesBadEnc.service.pipelines = [] ∧
    cfgNoPipesBadEnc.Validate ≠ some ConfigError.missingServicePipelines ∧
    cfgNoPipesBadEnc.Validate = some (ConfigError.invalidTelemetryEncoding "") := by
  decide

/-- Claim C4 amended: for every Config with non-empty Receivers and
Exporters registries, all of whose component configurations' own Validate
returns nil, whose telemetry logs encoding is "json" or "console", and
every one of whose Service.Extensions references resolves, an empty
Service.Pipelines map makes Validate return the MissingPipelines error. -/
theorem missing_pipelines_amended (cfg : Config)
    (hr : cfg.receivers ≠ []) (he : cfg.exporters ≠ [])
    (hrv : ∀ e ∈ cfg.receivers, ∀ c : CompCfg, e.2 = some c → c.validateErr = none)
    (hev : ∀ e ∈ cfg.exporters, ∀ c : CompCfg, e.2 = some c → c.validateErr = none)
    (hpv : ∀ e ∈ cfg.processors, ∀ c : CompCfg, e.2 = some c → c.validateErr = none)
    (hxv : ∀ e ∈ cfg.extensions, ∀ c : CompCfg, e.2 = some c → c.validateErr = none)
    (henc : cfg.service.telemetry.logs.encoding = "json" ∨
            cfg.service.telemetry.logs.encoding = "console")
    (hsext : ∀ ref ∈ cfg.service.extensions, Registry.lookup cfg.extensions ref ≠ none)
    (hp : cfg.service.pipelines = []) :
    cfg.Validate = some ConfigError.missingServicePipelines := by
  unfold Config.Validate
  rw [if_neg (by simp only [List.length_eq_zero]; exact hr),
    firstErr_componentErr_eq_none "receiver" _ hrv,
    if_neg (by simp only [List.length_eq_zero]; exact he),
    firstErr_componentErr_eq_none "exporter" _ hev,
    firstErr_componentErr_eq_none "processor" _ hpv,
    firstErr_componentErr_eq_none "extension" _ hxv]
  simp only [firstOf]
  unfold Config.validateService ServiceTelemetry.validate
  rw [(logs_validate_eq_none_iff _).mpr henc]
  have hext : firstErr (extRefErr cfg) cfg.service.extensions = none := by
    rw [firstErr_eq_none_iff]
    exact fun ref hm => (extRefErr_eq_none_iff cfg ref).mpr (hsext ref hm)
  rw [hext]
  simp [firstOf, hp]

/-- Non-empty receivers and exporters, valid telemetry, no pipelines. -/
def cfgNoPipes : Config :=
  { receivers := [("r1", okCfg)]
    exporters := [("e1", okCfg)]
    processors := []
    extensions := []
    service :=
      { telemetry := { logs := { level := 0, development := false, encoding := "console" } }
        extensions := []
        pipelines := [] } }

/-- Witness for the amended claim C4 at a concrete configuration. -/
theorem missing_pipelines_amended_witness :
    cfgNoPipes.Validate = some ConfigError.missingServicePipelines :=
  missing_pipelines_amended cfgNoPipes (by decide) (by decide)
    (by simp [cfgNoPipes, okCfg]) (by simp [cfgNoPipes, okCfg])
    (by simp [cfgNoPipes]) (by simp [cfgNoPipes])
    (Or.inr rfl) (by simp [cfgNoPipes]) rfl

/-- Claim C6: telemetry logs validation succeeds exactly when the encoding
is "json" or "console", and any failure carries the offending encoding in
an InvalidTelemetryEncoding error. -/
theorem telemetry_encoding_spec (l : ServiceTelemetryLogs) :
    (l.validate = none ↔ l.encoding = "json" ∨ l.encoding = "console") ∧
    (l.validate = none ∨
      l.validate = some (ConfigError.invalidTelemetryEncoding l.encoding)) := by
  refine ⟨logs_validate_eq_none_iff l, ?_⟩
  unfold ServiceTelemetryLogs.validate
  split
  · exact Or.inr rfl
  · exact Or.inl rfl

/-- Claim C7: the scenario A configuration — one receiver "r1", one
exporter "e1", empty Processors and Extensions registries, and one
pipeline wiring "r1" to "e1" — passes Validate; in particular its empty
Processors and Extensions registries cause no failure. -/
theorem scenarioA_passes :
    cfgA.processors = [] ∧ cfgA.extensions = [] ∧ cfgA.Validate = none := by
  decide

/-- Claim C8: Validate is a deterministic pure function of its input — two
calls on the same unmodified Config value yield the same result. -/
theorem validate_deterministic (c₁ c₂ : Config) (h : c₁ = c₂) :
    c₁.Validate = c₂.Validate := by
  rw [h]

/-- Witness for claim C8 at the scenario A configuration. -/
theorem validate_deterministic_witness : cfgA.Validate = cfgA.Validate :=
  validate_deterministic cfgA cfgA rfl

/-- Claim C5: within a single pipeline the receiver references are checked
before the processor and exporter checks: if `r` is the first receiver ID
of the pipeline that does not resolve in the top-level Receivers registry,
the pipeline check reports UnknownReceiverReference naming the pipeline
and `r`, with no assumption at all on the pipeline's processor and
exporter lists. -/
theorem pipeline_receivers_checked_first (cfg : Config) (p : Pipeline)
    (l₁ l₂ : List ComponentID) (r : ComponentID)
    (hsplit : p.receivers = l₁ ++ r :: l₂)
    (hok : ∀ y ∈ l₁, Registry.lookup cfg.receivers y ≠ none)
    (hbad : Registry.lookup cfg.receivers r = none) :
    cfg.validatePipeline p = some (ConfigError.unknownReceiverReference p.name r) := by
  unfold Config.validatePipeline
  rw [if_neg (by simp [hsplit]), hsplit, firstErr_append, firstErr_cons]
  have h1 : firstErr (recvRefErr cfg p.name) l₁ = none := by
    rw [firstErr_eq_none_iff]
    exact fun y hm => (recvRefErr_eq_none_iff cfg p.name y).mpr (hok y hm)
  have h2 : recvRefErr cfg p.name r =
      some (ConfigError.unknownReceiverReference p.name r) := by
    unfold recvRefErr
    rw [if_pos hbad]
  rw [h1, h2]
  simp [firstOf]

/-- A pipeline whose receiver, processor and exporter references are all
dangling with respect to the scenario A registries. -/
def pipelineX : Pipeline :=
  { name := "pX", inputType := "traces"
    receivers := ["bad_r"], processors := ["bad_p"], exporters := ["bad_e"] }

/-- Witness for claim C5: the pipeline also has unknown processor and
exporter references, yet the unknown receiver reference is reported. -/
theorem pipeline_receivers_checked_first_witness :
    Registry.lookup cfgA.processors "bad_p" = none ∧
    Registry.lookup cfgA.exporters "bad_e" = none ∧
    Config.validatePipeline cfgA pipelineX =
      some (ConfigError.unknownReceiverReference "pX" "bad_r") :=
  ⟨by decide, by decide,
    pipeline_receivers_checked_first cfgA pipelineX [] [] "bad_r" rfl
      (by simp) (by decide)⟩

/-- Claim C9: in each of the four cross-reference checks, a ComponentID
whose key is present in the target registry but maps to a nil value is
treated as nonexistent — the looked-up value compares equal to nil, so the
check fails with the corresponding unknown-reference error even though the
key exists. -/
theorem nil_valued_key_is_dangling (cfg : Config) (ref : ComponentID) (pname : String) :
    (cfg.extensions.find? (fun e => e.1 == ref) = some (ref, none) →
      (ref, (none : Option CompCfg)) ∈ cfg.extensions ∧
      extRefErr cfg ref = some (ConfigError.unknownExtensionReference ref)) ∧
    (cfg.receivers.find? (fun e => e.1 == ref) = some (ref, none) →
      (ref, (none : Option CompCfg)) ∈ cfg.receivers ∧
      recvRefErr cfg pname ref = some (ConfigError.unknownReceiverReference pname ref)) ∧
    (cfg.processors.find? (fun e => e.1 == ref) = some (ref, none) →
      (ref, (none : Option CompCfg)) ∈ cfg.processors ∧
      procRefErr cfg pname ref = some (ConfigError.unknownProcessorReference pname ref)) ∧
    (cfg.exporters.find? (fun e => e.1 == ref) = some (ref, none) →
      (ref, (none : Option CompCfg)) ∈ cfg.exporters ∧
      expRefErr cfg pname ref = some (ConfigError.unknownExporterReference pname ref)) := by
  refine ⟨fun h => ⟨List.mem_of_find?_eq_some h, ?_⟩,
          fun h => ⟨List.mem_of_find?_eq_some h, ?_⟩,
          fun h => ⟨List.mem_of_find?_eq_some h, ?_⟩,
          fun h => ⟨List.mem_of_find?_eq_some h, ?_⟩⟩ <;>
    simp [extRefErr, recvRefErr, procRefErr, expRefErr, Registry.lookup, h]

/-- A configuration whose four registries each hold the key "x" mapped to
a nil value. -/
def cfgNilEntries : Config :=
  { receivers := [("x", none)]
    exporters := [("x", none)]
    processors := [("x", none)]
    extensions := [("x", none)]
    service :=
      { telemetry := { logs := { level := 0, development := false, encoding := "json" } }
        extensions := []
        pipelines := [] } }

/-- Witness for claim C9 at a configuration whose registries map the
present key "x" to nil. -/
theorem nil_valued_key_is_dangling_witness :
    ((("x", (none : Option CompCfg)) ∈ cfgNilEntries.extensions ∧
      extRefErr cfgNilEntries "x" = some (ConfigError.unknownExtensionReference "x")) ∧
     (("x", (none : Option CompCfg)) ∈ cfgNilEntries.receivers ∧
      recvRefErr cfgNilEntries "p" "x" =
        some (ConfigError.unknownReceiverReference "p" "x")) ∧
     (("x", (none : Option CompCfg)) ∈ cfgNilEntries.processors ∧
      procRefErr cfgNilEntries "p" "x" =
        some (ConfigError.unknownProcessorReference "p" "x")) ∧
     (("x", (none : Option CompCfg)) ∈ cfgNilEntries.exporters ∧
      expRefErr cfgNilEntries "p" "x" =
        some (ConfigError.unknownExporterReference "p" "x"))) :=
  ⟨(nil_valued_key_is_dangling cfgNilEntries "x" "p").1 (by decide),
   (nil_valued_key_is_dangling cfgNilEntries "x" "p").2.1 (by decide),
   (nil_valued_key_is_dangling cfgNilEntries "x" "p").2.2.1 (by decide),
   (nil_valued_key_is_dangling cfgNilEntries "x" "p").2.2.2 (by decide)⟩

/-! Lemmas for the duplicate-reference claim: duplicating an element of a
reference list next to an existing occurrence never changes the first
error the loop produces, and the validator functions are congruent in the
parts of the configuration they actually read. -/

theorem firstErr_dup {α : Type} (f : α → Option ConfigError) (l₁ l₂ : List α) (x : α) :
    firstErr f (l₁ ++ x :: x :: l₂) = firstErr f (l₁ ++ x :: l₂) := by
  rw [firstErr_append, firstErr_append, firstErr_cons, firstErr_cons]
  cases hfx : f x <;> simp [firstOf]

theorem firstErr_middle_congr {α : Type} (f : α → Option ConfigError)
    (l₁ l₂ : List α) (a b : α) (h : f a = f b) :
    firstErr f (l₁ ++ a :: l₂) = firstErr f (l₁ ++ b :: l₂) := by
  rw [firstErr_append, firstErr_append, firstErr_cons, firstErr_cons, h]

theorem extRefErr_congr (c₁ c₂ : Config) (h : c₁.extensions = c₂.extensions) :
    extRefErr c₁ = extRefErr c₂ := by
  funext ref
  unfold extRefErr
  rw [h]

theorem recvRefErr_congr (c₁ c₂ : Config) (h : c₁.receivers = c₂.receivers) :
    recvRefErr c₁ = recvRefErr c₂ := by
  funext n ref
  unfold recvRefErr
  rw [h]

theorem procRefErr_congr (c₁ c₂ : Config) (h : c₁.processors = c₂.processors) :
    procRefErr c₁ = procRefErr c₂ := by
  funext n ref
  unfold procRefErr
  rw [h]

theorem expRefErr_congr (c₁ c₂ : Config) (h : c₁.exporters = c₂.exporters) :
    expRefErr c₁ = expRefErr c₂ := by
  funext n ref
  unfold expRefErr
  rw [h]

theorem validatePipeline_congr (c₁ c₂ : Config)
    (hr : c₁.receivers = c₂.receivers) (hp : c₁.processors = c₂.processors)
    (he : c₁.exporters = c₂.exporters) :
    Config.validatePipeline c₁ = Config.validatePipeline c₂ := by
  funext p
  unfold Config.validatePipeline
  rw [recvRefErr_congr c₁ c₂ hr, procRefErr_congr c₁ c₂ hp, expRefErr_congr c₁ c₂ he]

theorem validateService_congr (c₁ c₂ : Config)
    (hx : c₁.extensions = c₂.extensions)
    (hr : c₁.receivers = c₂.receivers) (hp : c₁.processors = c₂.processors)
    (he : c₁.exporters = c₂.exporters)
    (htel : c₁.service.telemetry = c₂.service.telemetry)
    (hext : firstErr (extRefErr c₂) c₁.service.extensions =
            firstErr (extRefErr c₂) c₂.service.extensions)
    (hlen : c₁.service.pipelines.length = c₂.service.pipelines.length)
    (hpipes : firstErr (fun e => c₂.validatePipeline e.2) c₁.service.pipelines =
              firstErr (fun e => c₂.validatePipeline e.2) c₂.service.pipelines) :
    c₁.validateService = c₂.validateService := by
  unfold Config.validateService
  rw [htel, extRefErr_congr c₁ c₂ hx, hext, hlen,
    validatePipeline_congr c₁ c₂ hr hp he, hpipes]

theorem Validate_congr (c₁ c₂ : Config)
    (hr : c₁.receivers = c₂.receivers) (he : c₁.exporters = c₂.exporters)
    (hp : c₁.processors = c₂.processors) (hx : c₁.extensions = c₂.extensions)
    (hsvc : c₁.validateService = c₂.validateService) :
    c₁.Validate = c₂.Validate := by
  unfold Config.Validate
  rw [hr, he, hp, hx, hsvc]

theorem validatePipeline_dup_recv (cfg : Config) (pl : Pipeline)
    (l₁ l₂ : List ComponentID) (id : ComponentID)
    (h : pl.receivers = l₁ ++ id :: l₂) :
    cfg.validatePipeline { pl with receivers := l₁ ++ id :: id :: l₂ } =
      cfg.validatePipeline pl := by
  unfold Config.validatePipeline
  dsimp only
  rw [h]
  simp [firstErr_dup]

theorem validatePipeline_dup_proc (cfg : Config) (pl : Pipeline)
    (l₁ l₂ : List ComponentID) (id : ComponentID)
    (h : pl.processors = l₁ ++ id :: l₂) :
    cfg.validatePipeline { pl with processors := l₁ ++ id :: id :: l₂ } =
      cfg.validatePipeline pl := by
  unfold Config.validatePipeline
  dsimp only
  rw [h, firstErr_dup]

theorem validatePipeline_dup_exp (cfg : Config) (pl : Pipeline)
    (l₁ l₂ : List ComponentID) (id : ComponentID)
    (h : pl.exporters = l₁ ++ id :: l₂) :
    cfg.validatePipeline { pl with exporters := l₁ ++ id :: id :: l₂ } =
      cfg.validatePipeline pl := by
  unfold Config.validatePipeline
  dsimp only
  rw [h]
  simp [firstErr_dup]

/-- Claim C10: the reference checks are pure membership tests over list
elements — duplicating (next to an existing occurrence) any ComponentID
already present in Service.Extensions or in a pipeline's receivers,
processors or exporters list leaves Validate's result unchanged. -/
theorem dup_reference_preserves_validate (cfg : Config) (id : ComponentID)
    (l₁ l₂ : List ComponentID) :
    (cfg.service.extensions = l₁ ++ id :: l₂ →
      Config.Validate
          { cfg with service := { cfg.service with extensions := l₁ ++ id :: id :: l₂ } } =
        cfg.Validate) ∧
    (∀ (ps₁ ps₂ : Pipelines) (k : ComponentID) (pl : Pipeline),
      cfg.service.pipelines = ps₁ ++ (k, pl) :: ps₂ →
      pl.receivers = l₁ ++ id :: l₂ →
      Config.Validate
          { cfg with service := { cfg.service with
              pipelines := ps₁ ++ (k, { pl with receivers := l₁ ++ id :: id :: l₂ }) :: ps₂ } } =
        cfg.Validate) ∧
    (∀ (ps₁ ps₂ : Pipelines) (k : ComponentID) (pl : Pipeline),
      cfg.service.pipelines = ps₁ ++ (k, pl) :: ps₂ →
      pl.processors = l₁ ++ id :: l₂ →
      Config.Validate
          { cfg with service := { cfg.service with
              pipelines := ps₁ ++ (k, { pl with processors := l₁ ++ id :: id :: l₂ }) :: ps₂ } } =
        cfg.Validate) ∧
    (∀ (ps₁ ps₂ : Pipelines) (k : ComponentID) (pl : Pipeline),
      cfg.service.pipelines = ps₁ ++ (k, pl) :: ps₂ →
      pl.exporters = l₁ ++ id :: l₂ →
      Config.Validate
          { cfg with service := { cfg.service with
              pipelines := ps₁ ++ (k, { pl with exporters := l₁ ++ id :: id :: l₂ }) :: ps₂ } } =
        cfg.Validate) := by
  refine ⟨fun h => ?_, fun ps₁ ps₂ k pl hps h => ?_,
          fun ps₁ ps₂ k pl hps h => ?_, fun ps₁ ps₂ k pl hps h => ?_⟩
  · refine Validate_congr _ cfg rfl rfl rfl rfl
      (validateService_congr _ cfg rfl rfl rfl rfl rfl ?_ rfl rfl)
    show firstErr (extRefErr cfg) (l₁ ++ id :: id :: l₂) =
      firstErr (extRefErr cfg) cfg.service.extensions
    rw [h]
    exact firstErr_dup _ _ _ _
  · refine Validate_congr _ cfg rfl rfl rfl rfl
      (validateService_congr _ cfg rfl rfl rfl rfl rfl rfl ?_ ?_)
    · show (ps₁ ++ (k, { pl with receivers := l₁ ++ id :: id :: l₂ }) :: ps₂).length =
        cfg.service.pipelines.length
      rw [hps]
      simp
    · show firstErr (fun e => cfg.validatePipeline e.2)
          (ps₁ ++ (k, { pl with receivers := l₁ ++ id :: id :: l₂ }) :: ps₂) =
        firstErr (fun e => cfg.validatePipeline e.2) cfg.service.pipelines
      rw [hps]
      exact firstErr_middle_congr _ _ _ _ _ (validatePipeline_dup_recv cfg pl l₁ l₂ id h)
  · refine Validate_congr _ cfg rfl rfl rfl rfl
      (validateService_congr _ cfg rfl rfl rfl rfl rfl rfl ?_ ?_)
    · show (ps₁ ++ (k, { pl with processors := l₁ ++ id :: id :: l₂ }) :: ps₂).length =
        cfg.service.pipelines.length
      rw [hps]
      simp
    · show firstErr (fun e => cfg.validatePipeline e.2)
          (ps₁ ++ (k, { pl with processors := l₁ ++ id :: id :: l₂ }) :: ps₂) =
        firstErr (fun e => cfg.validatePipeline e.2) cfg.service.pipelines
      rw [hps]
      exact firstErr_middle_congr _ _ _ _ _ (validatePipeline_dup_proc cfg pl l₁ l₂ id h)
  · refine Validate_congr _ cfg rfl rfl rfl rfl
      (validateService_congr _ cfg rfl rfl rfl rfl rfl rfl ?_ ?_)
    · show (ps₁ ++ (k, { pl with exporters := l₁ ++ id :: id :: l₂ }) :: ps₂).length =
        cfg.service.pipelines.length
      rw [hps]
      simp
    · show firstErr (fun e => cfg.validatePipeline e.2)
          (ps₁ ++ (k, { pl with exporters := l₁ ++ id :: id :: l₂ }) :: ps₂) =
        firstErr (fun e => cfg.validatePipeline e.2) cfg.service.pipelines
      rw [hps]
      exact firstErr_middle_congr _ _ _ _ _ (validatePipeline_dup_exp cfg pl l₁ l₂ id h)

/-- A pipeline with one receiver, one processor and one exporter. -/
def pl1 : Pipeline :=
  { name := "p1", inputType := "traces"
    receivers := ["r1"], processors := ["pr1"], exporters := ["e1"] }

/-- A fully wired configuration: one component per registry, one enabled
service extension, one pipeline using all three component kinds. -/
def cfgDup : Config :=
  { receivers := [("r1", okCfg)]
    exporters := [("e1", okCfg)]
    processors := [("pr1", okCfg)]
    extensions := [("x1", okCfg)]
    service :=
      { telemetry := { logs := { level := 0, development := false, encoding := "json" } }
        extensions := ["x1"]
        pipelines := [("p1", pl1)] } }

/-- Witness for claim C10: duplicating the service extension reference, or
the pipeline's receiver, processor or exporter reference, leaves the
validation verdict unchanged. -/
theorem dup_reference_preserves_validate_witness :
    (Config.Validate
        { cfgDup with service := { cfgDup.service with extensions := ["x1", "x1"] } } =
      cfgDup.Validate) ∧
    (Config.Validate
        { cfgDup with service := { cfgDup.service with
            pipelines := [("p1", { pl1 with receivers := ["r1", "r1"] })] } } =
      cfgDup.Validate) ∧
    (Config.Validate
        { cfgDup with service := { cfgDup.service with
            pipelines := [("p1", { pl1 with processors := ["pr1", "pr1"] })] } } =
      cfgDup.Validate) ∧
    (Config.Validate
        { cfgDup with service := { cfgDup.service with
            pipelines := [("p1", { pl1 with exporters := ["e1", "e1"] })] } } =
      cfgDup.Validate) :=
  ⟨(dup_reference_preserves_validate cfgDup "x1" [] []).1 rfl,
   (dup_reference_preserves_validate cfgDup "r1" [] []).2.1 [] [] "p1" pl1 rfl rfl,
   (dup_reference_preserves_validate cfgDup "pr1" [] []).2.2.1 [] [] "p1" pl1 rfl rfl,
   (dup_reference_preserves_validate cfgDup "e1" [] []).2.2.2 [] [] "p1" pl1 rfl rfl⟩

end OTelConfig
